import Mathlib

/-!
Verification of the Genesis Engine fork-aware analysis orchestrator
(backend/app of the Software_Architecture_Generator repository).

The Python backend is shallowly embedded: the record store (SQLAlchemy
session over Postgres) becomes an explicit `Store` value, each CRUD or
pipeline function becomes a pure Lean function threading that value, and
every fallible call (Gemini generation/embedding, Tiger CLI subprocess,
database commit) becomes an `Except`/oracle parameter supplied by the
caller.  Definitions follow `backend/app/models.py`, `crud.py`, `agents.py`
and `main.py`; deviations forced by the snapshot are noted in the doc
comment of the affected definition.
-/

namespace GenesisEngine

/-! ## Data model (backend/app/models.py)

Identifiers are opaque UUIDs in the source; they are modelled as `Nat`.
Embedding vectors are lists of floats whose numeric content is never
inspected by the verified code paths; components are modelled as `Int`.

The `models.py` file in this snapshot predates the schema migration that
the rest of the tree requires: `crud.py` writes `Analysis.finding_embedding`,
`main.py` reads `Blueprint.mermaid_diagram` and `Analysis.agent_type`, and
`diagnose.py` checks for the `mermaid_diagram` and `agent_type` columns and
prints the ALTER TABLE statements adding them.  The three columns below are
therefore modelled from the spec (Blueprint: "an optional derived diagram";
Analysis: "an origin tag identifying which critique persona produced it, an
optional embedding vector for the finding text"). -/

/-- Embedding vector for a finding (pgvector `Vector(768)` in the source). -/
abbrev Embedding := List Int

/-- Project row: `models.Project` (id, user_prompt, status, created_at;
the timestamp plays no role in any verified property). -/
structure Project where
  id : Nat
  user_prompt : String
  status : String
deriving Repr, DecidableEq

/-- One pros/cons entry: an object with "point" and "description" keys. -/
structure ProsCon where
  point : String
  description : String
deriving Repr, DecidableEq

/-- Blueprint row: `models.Blueprint` plus the `mermaid_diagram` column.
Modelled from the spec: the snapshot `models.py` lacks `mermaid_diagram`,
which `main.py`, `schemas.py` and `diagnose.py` require. -/
structure Blueprint where
  id : Nat
  project_id : Nat
  name : String
  description : String
  pros : List ProsCon
  cons : List ProsCon
  mermaid_diagram : Option String
deriving Repr, DecidableEq

/-- Analysis row: `models.Analysis` plus the `agent_type` and
`finding_embedding` columns.  Modelled from the spec: the snapshot
`models.py` lacks both, which `crud.py`, `main.py` and `diagnose.py`
require. -/
structure Analysis where
  id : Nat
  blueprint_id : Nat
  category : String
  finding : String
  severity : Int
  agent_type : Option String
  finding_embedding : Option Embedding
deriving Repr, DecidableEq

/-- One relational database (the primary store or one Tiger fork).
`nextId` models the id generator (`uuid.uuid4` defaults in the source). -/
structure Store where
  projects : List Project
  blueprints : List Blueprint
  analyses : List Analysis
  nextId : Nat
deriving Repr, DecidableEq

/-! ## Agent output payloads

The Gemini agents return loosely-typed JSON dictionaries.  A key that may
be absent is an `Option`; `severity` is `Option Int` (a missing key and a
non-integer value both fail the same `isinstance`/membership checks in
`crud.py` and `agents.py`, and are modelled as `none`). -/

/-- One analysis object from an analyst agent (dictionary with "category",
"finding", "severity" keys, later enriched with "agent_type" and
"finding_embedding"). -/
structure AnalysisData where
  category : Option String
  finding : Option String
  severity : Option Int
  agent_type : Option String
  finding_embedding : Option Embedding
deriving Repr, DecidableEq

/-- One blueprint object from the architect agent (dictionary with "name",
"description", "pros", "cons" keys, later enriched with "analyses" and
"mermaid_diagram"). -/
structure BlueprintData where
  name : Option String
  description : Option String
  pros : Option (List ProsCon)
  cons : Option (List ProsCon)
  mermaid_diagram : Option String
  analyses : List AnalysisData
deriving Repr, DecidableEq

/-! ## Branch Manager (main.py: create_database_fork)

The process-wide mutable flag `force_primary_mode` is threaded explicitly.
Its initial value is `(not TIGER_AVAILABLE) or (not settings.tiger_service_id)`
(main.py line 65); the startup environment and the outcome of each Tiger CLI
subprocess invocation are oracle inputs. -/

/-- Sentinel fork name meaning "use the primary database" (main.py line 33). -/
def PRIMARY_FORK_NAME : String := "__primary__"

/-- Startup facts consulted by `create_database_fork`: whether the Tiger CLI
binary was found at import time (`TIGER_AVAILABLE`) and whether
`settings.tiger_service_id` is non-empty. -/
structure ForkEnv where
  tiger_available : Bool
  tiger_service_id_set : Bool
deriving Repr, DecidableEq

/-- Outcome of one `tiger service fork` subprocess invocation. -/
inductive ForkOutcome where
  /-- The subprocess ran and exited 0. -/
  | success : ForkOutcome
  /-- `FileNotFoundError`: the Tiger CLI binary is missing. -/
  | toolMissing : ForkOutcome
  /-- The subprocess exited non-zero (includes authentication errors). -/
  | nonzeroExit (stderr : String) : ForkOutcome
  /-- Any other exception while spawning or awaiting the subprocess. -/
  | otherError (msg : String) : ForkOutcome
deriving Repr, DecidableEq

/-- Result of one `create_database_fork` call: the new value of the
`force_primary_mode` flag, the returned fork name, and whether the Tiger
CLI subprocess was invoked at all. -/
structure ForkCallResult where
  flag : Bool
  fork_name : String
  invoked : Bool
deriving Repr, DecidableEq

/-- Deterministic fork naming (main.py line 148). -/
def forkNameFor (project_id : String) (blueprint_index : Nat) : String :=
  s!"project_{project_id}_blueprint_{blueprint_index}"

/-- Embedding of `create_database_fork` (main.py lines 135-211): if the
degraded flag is already set, the CLI is unavailable, or the service id is
unconfigured, set the flag and return the primary sentinel without spawning
the subprocess; otherwise spawn it, returning the deterministic fork name
on success and setting the flag and returning the sentinel on any
failure. -/
def create_database_fork (flag : Bool) (env : ForkEnv)
    (project_id : String) (blueprint_index : Nat)
    (outcome : ForkOutcome) : ForkCallResult :=
  if flag || !env.tiger_available || !env.tiger_service_id_set then
    { flag := true, fork_name := PRIMARY_FORK_NAME, invoked := false }
  else
    match outcome with
    | .success =>
        { flag := flag, fork_name := forkNameFor project_id blueprint_index,
          invoked := true }
    | .toolMissing =>
        { flag := true, fork_name := PRIMARY_FORK_NAME, invoked := true }
    | .nonzeroExit _ =>
        { flag := true, fork_name := PRIMARY_FORK_NAME, invoked := true }
    | .otherError _ =>
        { flag := true, fork_name := PRIMARY_FORK_NAME, invoked := true }

/-- One entry of a call trace for `create_database_fork`: the startup
environment is fixed per process, the rest varies per call. -/
structure ForkCall where
  project_id : String
  blueprint_index : Nat
  outcome : ForkOutcome
deriving Repr, DecidableEq

/-- Run a sequence of `create_database_fork` calls, threading the
process-wide `force_primary_mode` flag through them. -/
def runForkCalls (flag : Bool) (env : ForkEnv) :
    List ForkCall → Bool × List ForkCallResult
  | [] => (flag, [])
  | c :: cs =>
      let r := create_database_fork flag env c.project_id c.blueprint_index c.outcome
      let rest := runForkCalls r.flag env cs
      (rest.1, r :: rest.2)

/-! ## Record Store CRUD (backend/app/crud.py) -/

/-- Embedding of `crud.get_project` (crud.py lines 100-124): point lookup
by id. -/
def get_project (db : Store) (project_id : Nat) : Option Project :=
  db.projects.find? (fun p => p.id == project_id)

/-- Update the status of the first project matching `pid`, mirroring
`get_project` followed by an attribute write in `crud.update_project_status`. -/
def setStatusFirst (pid : Nat) (status : String) : List Project → List Project
  | [] => []
  | p :: ps =>
      if p.id == pid then { p with status := status } :: ps
      else p :: setStatusFirst pid status ps

/-- Embedding of `crud.update_project_status` (crud.py lines 286-307): look
the project up; if found, set its status and commit; a missing project is a
no-op returning `None`. -/
def update_project_status (db : Store) (project_id : Nat) (status : String) :
    Store :=
  { db with projects := setStatusFirst project_id status db.projects }

/-- Embedding of `crud.create_project` (crud.py lines 75-97): insert a
Project row with the given prompt and status "pending" and commit. -/
def crud_create_project (db : Store) (prompt : String) : Store × Nat :=
  let pid := db.nextId
  ({ db with
      projects :=
        db.projects ++ [{ id := pid, user_prompt := prompt, status := "pending" }],
      nextId := pid + 1 },
   pid)

/-- Validation applied to each analysis dictionary inside
`crud.save_blueprint_and_analyses` (crud.py lines 190-198): all three
required keys must be present, then severity must be an integer in
[1, 10]. -/
def validate_analysis_data (a : AnalysisData) : Except String Unit :=
  if a.category.isNone || a.finding.isNone || a.severity.isNone then
    .error "Analysis data must contain category, finding, and severity"
  else
    match a.severity with
    | some s =>
        if s < 1 || 10 < s then
          .error "Severity must be an integer between 1 and 10"
        else .ok ()
    | none => .error "Analysis data must contain category, finding, and severity"

/-- Boolean form of `validate_analysis_data`. -/
def analysisDataValid (a : AnalysisData) : Bool :=
  a.category.isSome && a.finding.isSome &&
    match a.severity with
    | some s => decide (1 ≤ s) && decide (s ≤ 10)
    | none => false

/-- The pending-insert loop of `crud.save_blueprint_and_analyses` (crud.py
lines 190-209): validate each analysis dictionary in order and stage an
`Analysis` row for it; the first invalid dictionary aborts the whole batch.
The `agent_type` attached by the analyst agents is dropped because the
`models.Analysis(...)` constructor call in crud.py does not pass it. -/
def buildAnalysisRows (blueprint_id : Nat) :
    Nat → List AnalysisData → Except String (List Analysis)
  | _, [] => .ok []
  | nid, d :: ds =>
      match validate_analysis_data d with
      | .error e => .error e
      | .ok _ =>
          match buildAnalysisRows blueprint_id (nid + 1) ds with
          | .error e => .error e
          | .ok rest =>
              .ok ({ id := nid, blueprint_id := blueprint_id,
                     category := d.category.getD "", finding := d.finding.getD "",
                     severity := d.severity.getD 0,
                     agent_type := none,
                     finding_embedding := d.finding_embedding } :: rest)

/-- Embedding of `crud.save_blueprint_and_analyses` (crud.py lines 127-221):
verify the project exists, stage the Blueprint row (note: the constructor
call omits `mermaid_diagram`, so the stored diagram is always `none`),
flush to obtain its id, stage one Analysis row per validated analysis
dictionary, then commit; any failure rolls the session back, leaving the
committed store unchanged, and propagates as an error.  `commit_ok` is the
oracle for an infrastructure failure of the final `db.commit()`. -/
def save_blueprint_and_analyses (db : Store) (project_id : Nat)
    (blueprint_data : BlueprintData) (commit_ok : Bool) :
    Store × Except String Nat :=
  match get_project db project_id with
  | none => (db, .error "Project not found")
  | some _ =>
      let bpId := db.nextId
      let bp : Blueprint :=
        { id := bpId, project_id := project_id,
          name := blueprint_data.name.getD "Unnamed Blueprint",
          description := blueprint_data.description.getD "",
          pros := blueprint_data.pros.getD [],
          cons := blueprint_data.cons.getD [],
          mermaid_diagram := none }
      match buildAnalysisRows bpId (bpId + 1) blueprint_data.analyses with
      | .error e => (db, .error e)
      | .ok rows =>
          if commit_ok then
            ({ db with
                blueprints := db.blueprints ++ [bp],
                analyses := db.analyses ++ rows,
                nextId := bpId + 1 + rows.length },
             .ok bpId)
          else (db, .error "commit failed")

/-- Default per-branch result limit of `crud.hybrid_search_in_fork`
(crud.py line 228). -/
def hybrid_search_default_limit : Nat := 15

/-- Order a list of Analysis rows by ascending embedding distance, modelling
the `ORDER BY finding_embedding <=> :query_embedding` clause; `dist` is the
distance of a stored (possibly NULL) embedding to the query embedding. -/
def insertByDist (dist : Option Embedding → Int) (a : Analysis) :
    List Analysis → List Analysis
  | [] => [a]
  | b :: bs =>
      if dist a.finding_embedding ≤ dist b.finding_embedding then a :: b :: bs
      else b :: insertByDist dist a bs

/-- Insertion sort by embedding distance (see `insertByDist`). -/
def sortByDist (dist : Option Embedding → Int) : List Analysis → List Analysis
  | [] => []
  | a :: rest => insertByDist dist a (sortByDist dist rest)

/-- Embedding of `crud.hybrid_search_in_fork` (crud.py lines 224-256): an
empty query text or empty query embedding short-circuits to the empty list
before the SQL statement is built or executed (the Bool records whether the
store was queried); otherwise keep the rows whose finding matches the
full-text query (`ts_match`), order them by embedding distance, and take at
most `limit` rows. -/
def hybrid_search_in_fork (db : Store) (query_text : String)
    (query_embedding : Embedding) (ts_match : String → String → Bool)
    (dist : Option Embedding → Int) (limit : Nat) : Bool × List Analysis :=
  if query_text.isEmpty || query_embedding.isEmpty then (false, [])
  else
    let matched := db.analyses.filter fun a => ts_match a.finding query_text
    (true, (sortByDist dist matched).take limit)

/-- Modelled from the spec: `crud.delete_project` is called by the delete
endpoint (main.py line 825) but is absent from the snapshot of crud.py.
Per the spec ("delete project(id) → cascades", "never physically deleted
except by explicit user request (cascades to owned Blueprints/Analyses)")
it removes the Project row together with its owned Blueprints and their
Analyses, returning whether the project existed. -/
def crud_delete_project (db : Store) (project_id : Nat) : Store × Bool :=
  match get_project db project_id with
  | none => (db, false)
  | some _ =>
      let owned := db.blueprints.filter fun b => b.project_id == project_id
      ({ db with
          projects := db.projects.filter fun p => p.id != project_id,
          blueprints := db.blueprints.filter fun b => b.project_id != project_id,
          analyses :=
            db.analyses.filter fun a =>
              owned.all fun b => b.id != a.blueprint_id },
       true)

/-! ## Analyst agents (backend/app/agents.py)

Each Gemini call is an oracle: `Except String (List AnalysisData)` is the
parsed JSON array a persona produced (or the provider/parse failure), and
`Except String Embedding` is one embedding call's outcome. -/

/-- Per-item validation inside `run_systems_analysis` / `run_bizops_analysis`
(agents.py lines 298-305 and 340-347): every item must carry the three
required keys and an integer severity in [1, 10]; the first invalid item
fails the whole persona.  The checks coincide with
`validate_analysis_data`. -/
def validatePersonaList : List AnalysisData → Except String Unit
  | [] => .ok ()
  | a :: rest =>
      match validate_analysis_data a with
      | .error e => .error e
      | .ok _ => validatePersonaList rest

/-- One analyst persona (agents.py `run_systems_analysis` /
`run_bizops_analysis`): take the provider outcome, validate every item, and
tag each with its `agent_type`. -/
def run_persona (provider : Except String (List AnalysisData)) (tag : String) :
    Except String (List AnalysisData) :=
  match provider with
  | .error e => .error e
  | .ok raw =>
      match validatePersonaList raw with
      | .error e => .error e
      | .ok _ => .ok (raw.map fun a => { a with agent_type := some tag })

/-- Embedding of `agents.run_analyst_agents` (agents.py lines 195-375): run
the two personas concurrently and join; if either fails, the whole critique
stage fails (`asyncio.gather` without `return_exceptions` re-raises), with
no partial acceptance of the other persona's output. -/
def run_analyst_agents
    (systems_provider bizops_provider : Except String (List AnalysisData)) :
    Except String (List AnalysisData) :=
  match run_persona systems_provider "systems",
        run_persona bizops_provider "bizops" with
  | .ok s, .ok b => .ok (s ++ b)
  | .error e, _ => .error e
  | _, .error e => .error e

/-! ## Analysis Pipeline orchestrator (main.py: blueprint_analysis_orchestrator)

The orchestrator is modelled in primary-store mode (`force_primary_mode`
true, or fork name `__primary__`), where the fork session and the main
session address the same database — the configuration in which all of a
slot's rows and the Project row live in one `Store`. -/

/-- Enrichment stage (main.py lines 246-263): one embedding call per
finding, gathered with `return_exceptions=True`; a failed call records the
finding's embedding as absent (`None`), and a successful but falsy (empty)
vector is also recorded as absent (`embedding_result if embedding_result
else None`).  `zip` truncates to the shorter list exactly as Python's
does. -/
def attach_embeddings (analyses : List AnalysisData)
    (embeds : List (Except String Embedding)) : List AnalysisData :=
  (analyses.zip embeds).map fun p =>
    match p.2 with
    | .error _ => { p.1 with finding_embedding := none }
    | .ok v =>
        { p.1 with finding_embedding := if v.isEmpty then none else some v }

/-- Oracles for one background orchestrator run: the two persona provider
outcomes, the per-finding embedding outcomes, the diagram generation
outcome, and whether the final database commit succeeds. -/
structure OrchestratorInput where
  systems : Except String (List AnalysisData)
  bizops : Except String (List AnalysisData)
  embeds : List (Except String Embedding)
  diagram : Except String String
  commit_ok : Bool

/-- The payload handed to the persist stage (main.py lines 265-289): the
blueprint dictionary with the enriched analyses attached and
`mermaid_diagram` set from the diagram stage (absent when that stage
failed — diagram failure does not fail the run). -/
def orchestrator_blueprint_payload (blueprint_data : BlueprintData)
    (analyses : List AnalysisData) (embeds : List (Except String Embedding))
    (diagram : Except String String) : BlueprintData :=
  { blueprint_data with
      analyses := attach_embeddings analyses embeds,
      mermaid_diagram :=
        match diagram with
        | .ok d => some d
        | .error _ => none }

/-! ## Completion Detector (main.py: update_project_status_if_complete) -/

/-- Blueprints owned by a project (the `project.blueprints` relationship). -/
def project_blueprints (db : Store) (project_id : Nat) : List Blueprint :=
  db.blueprints.filter fun b => b.project_id == project_id

/-- Analyses owned by a blueprint (the `blueprint.analyses` relationship). -/
def blueprint_analyses_of (db : Store) (blueprint_id : Nat) : List Analysis :=
  db.analyses.filter fun a => a.blueprint_id == blueprint_id

/-- Completion condition in primary-store fallback mode (main.py lines
330-340): the project exists, owns at least one Blueprint, and every owned
Blueprint has at least one Analysis. -/
def primaryCompleteB (db : Store) (project_id : Nat) : Bool :=
  match get_project db project_id with
  | none => false
  | some _ =>
      let bps := project_blueprints db project_id
      !bps.isEmpty && bps.all fun b => !(blueprint_analyses_of db b.id).isEmpty

/-- Embedding of `update_project_status_if_complete` in primary-store
fallback mode: mark the project "completed" exactly when
`primaryCompleteB` holds, otherwise change nothing; every exception inside
the source function is caught and logged, so the call never raises. -/
def update_project_status_if_complete (db : Store) (project_id : Nat) : Store :=
  if primaryCompleteB db project_id then
    update_project_status db project_id "completed"
  else db

/-- Completion condition in branching mode (main.py lines 342-356): the
slot-0 fork resolves (`none` models a fork session that cannot be created
or queried, swallowed by `except: pass`) and contains at least one
Blueprint row.  Analyses are not consulted in this mode. -/
def forkCompleteB : Option Store → Bool
  | none => false
  | some fork => !fork.blueprints.isEmpty

/-- Embedding of `update_project_status_if_complete` in branching mode: the
main store's project is marked "completed" exactly when the slot-0 fork
reports presence of a Blueprint. -/
def update_project_status_if_complete_fork (main : Store) (fork0 : Option Store)
    (project_id : Nat) : Store :=
  if forkCompleteB fork0 then update_project_status main project_id "completed"
  else main

/-- Embedding of `blueprint_analysis_orchestrator` (main.py lines 214-319)
in primary-store mode: critique (fail-fast join of the two personas), then
enrichment (fail-soft per finding), then diagram (fail-soft), then the
atomic persist, then the Completion Detector; any failure of critique or
persist is caught by the outer handler, which sets the Project status to
"error" in the main store. -/
def blueprint_analysis_orchestrator (db : Store) (project_id : Nat)
    (blueprint_data : BlueprintData) (inp : OrchestratorInput) : Store :=
  match run_analyst_agents inp.systems inp.bizops with
  | .error _ => update_project_status db project_id "error"
  | .ok analyses =>
      match save_blueprint_and_analyses db project_id
          (orchestrator_blueprint_payload blueprint_data analyses inp.embeds
            inp.diagram) inp.commit_ok with
      | (db', .ok _) => update_project_status_if_complete db' project_id
      | (db', .error _) => update_project_status db' project_id "error"

/-! ## Caller-facing endpoints (main.py) -/

/-- HTTP-level failure (FastAPI `HTTPException`): status code and detail. -/
structure HttpError where
  status_code : Nat
  detail : String
deriving Repr, DecidableEq

/-- Status of a project as visible in the primary store. -/
def project_status (db : Store) (project_id : Nat) : Option String :=
  (get_project db project_id).map (·.status)

/-- Embedding of the synchronous part of `POST /projects` (main.py lines
456-542): create the Project row ("pending"), call the architect agent;
on failure set the status to "error" and report a 500 (the row is not
rolled back); on success set "processing" and return the id (fork creation
and the background orchestrator do not touch the store synchronously). -/
def create_project_endpoint (db : Store) (user_prompt : String)
    (architect : Except String (List BlueprintData)) :
    Store × Except HttpError Nat :=
  let created := crud_create_project db user_prompt
  match architect with
  | .error e =>
      (update_project_status created.1 created.2 "error",
       .error { status_code := 500, detail := s!"Failed to generate blueprints: {e}" })
  | .ok _ =>
      (update_project_status created.1 created.2 "processing", .ok created.2)

/-- Embedding of `GET /projects/{id}/status` (main.py lines 703-737):
404 when the project is unknown, otherwise its current status. -/
def get_project_status_endpoint (db : Store) (project_id : Nat) :
    Except HttpError String :=
  match get_project db project_id with
  | none => .error { status_code := 404, detail := "Project not found" }
  | some p => .ok p.status

/-- Embedding of `DELETE /projects/{id}` (main.py lines 803-838) over the
spec-modelled `crud_delete_project`: 404 when the project is unknown,
otherwise delete with cascade and report success. -/
def delete_project_endpoint (db : Store) (project_id : Nat) :
    Store × Except HttpError String :=
  match crud_delete_project db project_id with
  | (db', true) => (db', .ok "Project deleted successfully")
  | (db', false) =>
      (db', .error { status_code := 404, detail := "Project not found" })

/-- One branch's contribution to the fan-out search (main.py
`search_single_fork`, lines 769-784): a failed fork connection is caught
and contributes `.ok []`; a failure inside the hybrid query propagates as
an exception (collected by `asyncio.gather` with
`return_exceptions=True`). -/
def search_single_fork (conn : Option Store) (query_fails : Bool)
    (query_text : String) (query_embedding : Embedding)
    (ts_match : String → String → Bool) (dist : Option Embedding → Int) :
    Except String (List Analysis) :=
  match conn with
  | none => .ok []
  | some fork =>
      if query_fails then .error "Fork search task failed"
      else
        .ok (hybrid_search_in_fork fork query_text query_embedding ts_match
              dist hybrid_search_default_limit).2

/-- The merge loop of `POST /projects/{id}/search` (main.py lines 789-794):
results of failed branch tasks are logged and dropped, the rest are
concatenated in branch order with no re-ranking and no further limit. -/
def combine_fork_results (results : List (Except String (List Analysis))) :
    List Analysis :=
  results.foldl
    (fun acc r =>
      match r with
      | .error _ => acc
      | .ok l => acc ++ l)
    []

/-- The list a branch contributes to the merged search output: failed
branches contribute the empty list. -/
def branchContribution (r : Except String (List Analysis)) : List Analysis :=
  match r with
  | .error _ => []
  | .ok l => l

/-- True when an oracle call failed (the Python call raised). -/
def exceptFailed {ε α : Type} : Except ε α → Bool
  | .error _ => true
  | .ok _ => false

/-- Number of failed embedding calls among the per-finding outcomes. -/
def countEmbedFailures (embeds : List (Except String Embedding)) : Nat :=
  embeds.countP fun r => exceptFailed r

/-! ## Concrete fixtures used by witnesses -/

/-- A one-project primary store in "processing" state. -/
def C1db : Store :=
  { projects := [{ id := 0, user_prompt := "an online shop", status := "processing" }],
    blueprints := [], analyses := [], nextId := 1 }

/-- A parsed architect blueprint dictionary. -/
def C1bd : BlueprintData :=
  { name := some "Cloud-Native Microservices Architecture",
    description := some "event-driven services", pros := some [],
    cons := some [], mermaid_diagram := none, analyses := [] }

/-- Orchestrator oracles: both personas succeed with one finding each, the
first embedding call fails, the second returns a vector, the diagram stage
succeeds, the commit succeeds. -/
def C1inp : OrchestratorInput :=
  { systems := Except.ok
      [{ category := some "Performance", finding := some "slow joins",
         severity := some 3, agent_type := none, finding_embedding := none }],
    bizops := Except.ok
      [{ category := some "Cost", finding := some "expensive mesh",
         severity := some 9, agent_type := none, finding_embedding := none }],
    embeds := [Except.error "embed down", Except.ok [1, 2]],
    diagram := Except.ok "graph TB", commit_ok := true }

/-- The critique result for `C1inp`: both findings, tagged by persona. -/
def C1analyses : List AnalysisData :=
  [{ category := some "Performance", finding := some "slow joins",
     severity := some 3, agent_type := some "systems",
     finding_embedding := none },
   { category := some "Cost", finding := some "expensive mesh",
     severity := some 9, agent_type := some "bizops",
     finding_embedding := none }]

/-! ## Helper lemmas -/

/-- Any fork-creation failure, and any call with the flag already set, leaves
the degraded flag set. -/
lemma create_database_fork_flag_true (flag : Bool) (env : ForkEnv)
    (pid : String) (idx : Nat) (o : ForkOutcome) (ho : o ≠ ForkOutcome.success) :
    (create_database_fork flag env pid idx o).flag = true := by
  unfold create_database_fork
  split
  · rfl
  · cases o with
    | success => exact absurd rfl ho
    | toolMissing => rfl
    | nonzeroExit s => rfl
    | otherError s => rfl

/-- With the degraded flag set, a call returns the primary sentinel without
invoking the backend. -/
lemma create_database_fork_flagged (env : ForkEnv) (pid : String) (idx : Nat)
    (o : ForkOutcome) :
    create_database_fork true env pid idx o =
      { flag := true, fork_name := PRIMARY_FORK_NAME, invoked := false } := by
  unfold create_database_fork
  simp

/-! ## Claim C4 -/

/-- Claim C4: once the degraded-mode flag is set — by the branch tool being
missing at startup, the service identifier being unconfigured, a non-zero
exit, or any other branch-creation failure — every subsequent call to
`create_database_fork` returns the primary-store sentinel without invoking
the branching backend, for the whole remaining call sequence, and the flag
never reverts to branching mode. -/
theorem claim_C4_degraded_mode_sticky (env : ForkEnv) (calls : List ForkCall) :
    runForkCalls true env calls =
      (true,
        calls.map fun _ =>
          ({ flag := true, fork_name := PRIMARY_FORK_NAME, invoked := false } :
            ForkCallResult)) ∧
    (∀ (flag : Bool) (pid : String) (idx : Nat) (o : ForkOutcome),
        o ≠ ForkOutcome.success →
        (create_database_fork flag env pid idx o).flag = true) ∧
    (∀ (flag : Bool) (pid : String) (idx : Nat) (o : ForkOutcome),
        env.tiger_available = false →
        (create_database_fork flag env pid idx o).flag = true ∧
        (create_database_fork flag env pid idx o).invoked = false) := by
  refine ⟨?_, ?_, ?_⟩
  · induction calls with
    | nil => rfl
    | cons c cs ih =>
        simp only [runForkCalls, create_database_fork_flagged, ih, List.map_cons]
  · intro flag pid idx o ho
    exact create_database_fork_flag_true flag env pid idx o ho
  · intro flag pid idx o hta
    unfold create_database_fork
    have : (flag || !env.tiger_available || !env.tiger_service_id_set) = true := by
      simp [hta]
    rw [if_pos this]
    exact ⟨rfl, rfl⟩

/-- Witness for claim C4 at concrete inputs: with the flag set, a call whose
underlying cause would have succeeded still returns the sentinel without
invoking the backend, and a non-zero exit sets the flag. -/
theorem claim_C4_degraded_mode_sticky_witness :
    runForkCalls true { tiger_available := true, tiger_service_id_set := true }
        [{ project_id := "p1", blueprint_index := 0,
           outcome := ForkOutcome.success }] =
      (true, [{ flag := true, fork_name := PRIMARY_FORK_NAME, invoked := false }]) ∧
    (ForkOutcome.nonzeroExit "boom" ≠ ForkOutcome.success ∧
      (create_database_fork false
          { tiger_available := true, tiger_service_id_set := true } "p1" 0
          (ForkOutcome.nonzeroExit "boom")).flag = true) :=
  ⟨(claim_C4_degraded_mode_sticky
      { tiger_available := true, tiger_service_id_set := true } _).1,
   by decide,
   (claim_C4_degraded_mode_sticky
      { tiger_available := true, tiger_service_id_set := true } []).2.1
     false "p1" 0 (ForkOutcome.nonzeroExit "boom") (by decide)⟩

/-- The hybrid search never returns more rows than its limit. -/
lemma hybrid_search_length_le (db : Store) (query_text : String)
    (query_embedding : Embedding) (ts_match : String → String → Bool)
    (dist : Option Embedding → Int) (limit : Nat) :
    (hybrid_search_in_fork db query_text query_embedding ts_match dist
        limit).2.length ≤ limit := by
  unfold hybrid_search_in_fork
  split
  · simp
  · exact List.length_take_le limit
      (sortByDist dist (db.analyses.filter fun a => ts_match a.finding query_text))

/-! ## Claim C10 -/

/-- Claim C10: the per-branch hybrid search returns at most 15 Analyses per
branch (its default, undocumented limit), and returns the empty list without
querying the store when given empty query text or an empty query
embedding. -/
theorem claim_C10_hybrid_search_limit (db : Store) (query_text : String)
    (query_embedding : Embedding) (ts_match : String → String → Bool)
    (dist : Option Embedding → Int) :
    hybrid_search_default_limit = 15 ∧
    (hybrid_search_in_fork db query_text query_embedding ts_match dist
        hybrid_search_default_limit).2.length ≤ 15 ∧
    ((query_text.isEmpty || query_embedding.isEmpty) = true →
      hybrid_search_in_fork db query_text query_embedding ts_match dist
        hybrid_search_default_limit = (false, [])) := by
  refine ⟨rfl, ?_, ?_⟩
  · exact hybrid_search_length_le db query_text query_embedding ts_match dist
      hybrid_search_default_limit
  · intro h
    unfold hybrid_search_in_fork
    rw [if_pos h]

/-- Witness for claim C10 at a concrete store and query: a branch holding 20
matching analyses returns exactly 15, and the empty query short-circuits. -/
theorem claim_C10_hybrid_search_limit_witness :
    ((("" : String).isEmpty || ([] : Embedding).isEmpty) = true ∧
      hybrid_search_in_fork
        { projects := [], blueprints := [],
          analyses := (List.range 20).map fun i =>
            { id := i, blueprint_id := 0, category := "c", finding := "f",
              severity := 5, agent_type := none, finding_embedding := none },
          nextId := 100 }
        "" [] (fun _ _ => true) (fun _ => 0) hybrid_search_default_limit
        = (false, [])) ∧
    (hybrid_search_in_fork
        { projects := [], blueprints := [],
          analyses := (List.range 20).map fun i =>
            { id := i, blueprint_id := 0, category := "c", finding := "f",
              severity := 5, agent_type := none, finding_embedding := none },
          nextId := 100 }
        "risk" [1] (fun _ _ => true) (fun _ => 0)
        hybrid_search_default_limit).2.length ≤ 15 :=
  ⟨⟨by decide,
    (claim_C10_hybrid_search_limit _ "" [] (fun _ _ => true) (fun _ => 0)).2.2
      (by decide)⟩,
   (claim_C10_hybrid_search_limit _ "risk" [1] (fun _ _ => true)
      (fun _ => 0)).2.1⟩

/-! ## Claim C6 -/

/-- The merge fold is concatenation of the per-branch contributions. -/
lemma combine_fork_results_eq_flatten
    (results : List (Except String (List Analysis))) :
    combine_fork_results results = (results.map branchContribution).flatten := by
  suffices h : ∀ acc : List Analysis,
      results.foldl
        (fun acc r =>
          match r with
          | .error _ => acc
          | .ok l => acc ++ l)
        acc = acc ++ (results.map branchContribution).flatten by
    simpa [combine_fork_results] using h []
  induction results with
  | nil => intro acc; simp
  | cons r rs ih =>
      intro acc
      cases r with
      | error e => simp [List.foldl_cons, branchContribution, ih]
      | ok l => simp [List.foldl_cons, branchContribution, ih (acc ++ l)]

/-- Claim C6: the search fan-out returns the concatenation of the
per-branch result lists, with failed branches contributing the empty list;
its length is the sum of the per-branch result counts, and each successful
branch's count is bounded only by that branch's own limit (15); no global
re-ranking or cross-branch limit is applied. -/
theorem claim_C6_search_concatenates_branches
    (results : List (Except String (List Analysis))) :
    combine_fork_results results = (results.map branchContribution).flatten ∧
    (combine_fork_results results).length =
      ((results.map branchContribution).map List.length).sum ∧
    (∀ (conn : Option Store) (query_fails : Bool) (query_text : String)
        (query_embedding : Embedding) (ts_match : String → String → Bool)
        (dist : Option Embedding → Int) (l : List Analysis),
      search_single_fork conn query_fails query_text query_embedding ts_match
          dist = .ok l →
      l.length ≤ hybrid_search_default_limit) := by
  refine ⟨combine_fork_results_eq_flatten results, ?_, ?_⟩
  · rw [combine_fork_results_eq_flatten results]
    simp [List.length_flatten, Function.comp]
  · intro conn query_fails query_text query_embedding ts_match dist l h
    cases conn with
    | none =>
        simp only [search_single_fork] at h
        cases h
        simp
    | some fork =>
        simp only [search_single_fork] at h
        split at h
        · cases h
        · cases h
          exact hybrid_search_length_le fork query_text query_embedding
            ts_match dist hybrid_search_default_limit

/-- Witness for claim C6 at concrete inputs: an unreachable branch
contributes the empty list, and two successful branches with one and one
result merge into two results. -/
theorem claim_C6_search_concatenates_branches_witness :
    (search_single_fork none true "q" [1] (fun _ _ => true) (fun _ => 0)
        = Except.ok ([] : List Analysis)) ∧
    ([] : List Analysis).length ≤ hybrid_search_default_limit ∧
    (combine_fork_results
        [Except.ok [{ id := 10, blueprint_id := 5, category := "Performance",
                      finding := "hot path", severity := 7, agent_type := none,
                      finding_embedding := some [1, 2] }],
         Except.error "fork down",
         Except.ok [{ id := 11, blueprint_id := 5, category := "Cost",
                      finding := "expensive", severity := 4, agent_type := none,
                      finding_embedding := none }]]).length = 2 := by
  refine ⟨rfl, ?_, ?_⟩
  · exact (claim_C6_search_concatenates_branches []).2.2 none true "q" [1]
      (fun _ _ => true) (fun _ => 0) [] rfl
  · rw [(claim_C6_search_concatenates_branches _).1]
    decide

/-! ## Status-update helper lemmas -/

/-- Setting a status twice is the same as setting it once. -/
lemma setStatusFirst_idem (pid : Nat) (s : String) (l : List Project) :
    setStatusFirst pid s (setStatusFirst pid s l) = setStatusFirst pid s l := by
  induction l with
  | nil => rfl
  | cons p ps ih =>
      by_cases h : (p.id == pid) = true
      · simp [setStatusFirst, h]
      · simp only [setStatusFirst, if_neg h]
        rw [ih]

/-- Looking up the updated project finds it with the new status. -/
lemma find?_setStatusFirst (pid : Nat) (s : String) (l : List Project) :
    (setStatusFirst pid s l).find? (fun p => p.id == pid)
      = (l.find? (fun p => p.id == pid)).map fun p => { p with status := s } := by
  induction l with
  | nil => rfl
  | cons p ps ih =>
      by_cases h : (p.id == pid) = true
      · simp [setStatusFirst, h, List.find?_cons_of_pos]
      · simp only [setStatusFirst, if_neg h]
        rw [List.find?_cons_of_neg _ (by simpa using h),
            List.find?_cons_of_neg _ (by simpa using h), ih]

/-- A status update rewrites only the projects table. -/
lemma update_project_status_parts (db : Store) (pid : Nat) (s : String) :
    (update_project_status db pid s).blueprints = db.blueprints ∧
    (update_project_status db pid s).analyses = db.analyses ∧
    (update_project_status db pid s).nextId = db.nextId :=
  ⟨rfl, rfl, rfl⟩

/-- Lookup of the updated project after a status update. -/
lemma get_project_update (db : Store) (pid : Nat) (s : String) :
    get_project (update_project_status db pid s) pid
      = (get_project db pid).map fun p => { p with status := s } := by
  unfold get_project update_project_status
  exact find?_setStatusFirst pid s db.projects

/-- Writing the same status twice is the same as writing it once. -/
lemma update_project_status_idem (db : Store) (pid : Nat) (s : String) :
    update_project_status (update_project_status db pid s) pid s
      = update_project_status db pid s := by
  unfold update_project_status
  simp [setStatusFirst_idem]

/-- The completion condition only reads statuses through project identity,
so a status update does not change it. -/
lemma primaryCompleteB_update (db : Store) (pid : Nat) (s : String) :
    primaryCompleteB (update_project_status db pid s) pid
      = primaryCompleteB db pid := by
  unfold primaryCompleteB
  rw [get_project_update]
  cases hp : get_project db pid with
  | none => rfl
  | some p => rfl

/-! ## Claim C5 -/

/-- Claim C5: the Completion Detector is idempotent — calling it when the
project is already completed, or when it is not yet complete, leaves the
store (and in particular the Project's status) unchanged and raises no
error — and it transitions the status to "completed" exactly when every
expected slot has its persisted Blueprint with Analyses: in degraded mode,
when the project owns at least one Blueprint and each owned Blueprint has
at least one Analysis in the primary store; in branching mode, when the
slot-0 branch resolves and holds the Blueprint. -/
theorem claim_C5_completion_detector_idempotent (db main : Store)
    (fork0 : Option Store) (pid : Nat) :
    update_project_status_if_complete (update_project_status_if_complete db pid)
        pid = update_project_status_if_complete db pid ∧
    (primaryCompleteB db pid = false →
      update_project_status_if_complete db pid = db) ∧
    (primaryCompleteB db pid = true →
      project_status (update_project_status_if_complete db pid) pid
        = some "completed") ∧
    update_project_status_if_complete_fork
        (update_project_status_if_complete_fork main fork0 pid) fork0 pid
      = update_project_status_if_complete_fork main fork0 pid ∧
    (forkCompleteB fork0 = false →
      update_project_status_if_complete_fork main fork0 pid = main) ∧
    (forkCompleteB fork0 = true → (get_project main pid).isSome = true →
      project_status (update_project_status_if_complete_fork main fork0 pid) pid
        = some "completed") := by
  refine ⟨?_, ?_, ?_, ?_, ?_, ?_⟩
  · by_cases h : primaryCompleteB db pid = true
    · simp [update_project_status_if_complete, h, primaryCompleteB_update,
        update_project_status_idem]
    · simp [update_project_status_if_complete, h]
  · intro h
    simp [update_project_status_if_complete, h]
  · intro h
    cases hp : get_project db pid with
    | none =>
        exfalso
        unfold primaryCompleteB at h
        rw [hp] at h
        exact Bool.false_ne_true h
    | some p =>
        simp [update_project_status_if_complete, h, project_status,
          get_project_update, hp]
  · by_cases h : forkCompleteB fork0 = true
    · simp [update_project_status_if_complete_fork, h,
        update_project_status_idem]
    · simp [update_project_status_if_complete_fork, h]
  · intro h
    simp [update_project_status_if_complete_fork, h]
  · intro h hp
    cases hq : get_project main pid with
    | none => rw [hq] at hp; exact absurd hp (by simp)
    | some p =>
        simp [update_project_status_if_complete_fork, h, project_status,
          get_project_update, hq]

/-- Witness for claim C5 at a concrete store: one project owning one
Blueprint with one Analysis is detected complete, the detector is a no-op
on an incomplete store, and a resolvable branch holding a Blueprint marks
the main project completed. -/
theorem claim_C5_completion_detector_idempotent_witness :
    (primaryCompleteB
        { projects := [{ id := 0, user_prompt := "p", status := "processing" }],
          blueprints := [{ id := 1, project_id := 0, name := "bp",
                           description := "d", pros := [], cons := [],
                           mermaid_diagram := none }],
          analyses := [{ id := 2, blueprint_id := 1, category := "Security",
                         finding := "f", severity := 9, agent_type := none,
                         finding_embedding := none }],
          nextId := 3 } 0 = true ∧
      project_status
        (update_project_status_if_complete
          { projects := [{ id := 0, user_prompt := "p", status := "processing" }],
            blueprints := [{ id := 1, project_id := 0, name := "bp",
                             description := "d", pros := [], cons := [],
                             mermaid_diagram := none }],
            analyses := [{ id := 2, blueprint_id := 1, category := "Security",
                           finding := "f", severity := 9, agent_type := none,
                           finding_embedding := none }],
            nextId := 3 } 0) 0 = some "completed") ∧
    (primaryCompleteB
        { projects := [{ id := 0, user_prompt := "p", status := "processing" }],
          blueprints := [], analyses := [], nextId := 1 } 0 = false ∧
      update_project_status_if_complete
          { projects := [{ id := 0, user_prompt := "p", status := "processing" }],
            blueprints := [], analyses := [], nextId := 1 } 0
        = { projects := [{ id := 0, user_prompt := "p", status := "processing" }],
            blueprints := [], analyses := [], nextId := 1 }) := by
  refine ⟨⟨by decide, ?_⟩, ⟨by decide, ?_⟩⟩
  · exact (claim_C5_completion_detector_idempotent _
      { projects := [], blueprints := [], analyses := [], nextId := 0 } none
      0).2.2.1 (by decide)
  · exact (claim_C5_completion_detector_idempotent _
      { projects := [], blueprints := [], analyses := [], nextId := 0 } none
      0).2.1 (by decide)

/-! ## Claim C2 -/

/-- If either persona fails, the whole critique join fails. -/
lemma run_analyst_agents_error (sys biz : Except String (List AnalysisData))
    (hfail : exceptFailed (run_persona sys "systems") = true
           ∨ exceptFailed (run_persona biz "bizops") = true) :
    ∃ e, run_analyst_agents sys biz = .error e := by
  unfold run_analyst_agents
  cases hs : run_persona sys "systems" with
  | error e =>
      cases hb : run_persona biz "bizops" with
      | error e2 => exact ⟨e, rfl⟩
      | ok b => exact ⟨e, rfl⟩
  | ok s =>
      cases hb : run_persona biz "bizops" with
      | error e => exact ⟨e, rfl⟩
      | ok b =>
          rcases hfail with h | h
          · rw [hs] at h; simp [exceptFailed] at h
          · rw [hb] at h; simp [exceptFailed] at h

/-- Claim C2: if either of the two concurrent critique calls (systems or
bizops persona) fails for any reason — provider error, bad response shape,
or invalid severity, all of which surface as a failed persona — no
Blueprint and no Analysis for the slot is persisted and the Project's
status is set to "error". -/
theorem claim_C2_critique_fail_fast (db : Store) (pid : Nat)
    (bd : BlueprintData) (inp : OrchestratorInput)
    (hfail : exceptFailed (run_persona inp.systems "systems") = true
           ∨ exceptFailed (run_persona inp.bizops "bizops") = true)
    (hproj : (get_project db pid).isSome = true) :
    (blueprint_analysis_orchestrator db pid bd inp).blueprints = db.blueprints ∧
    (blueprint_analysis_orchestrator db pid bd inp).analyses = db.analyses ∧
    project_status (blueprint_analysis_orchestrator db pid bd inp) pid
      = some "error" := by
  obtain ⟨e, he⟩ := run_analyst_agents_error inp.systems inp.bizops hfail
  unfold blueprint_analysis_orchestrator
  rw [he]
  refine ⟨rfl, rfl, ?_⟩
  unfold project_status
  rw [get_project_update]
  cases hp : get_project db pid with
  | none => rw [hp] at hproj; simp at hproj
  | some p => simp

/-- Witness for claim C2: a provider failure of the systems persona leaves
a concrete one-project store without blueprint or analysis rows and marks
the project "error". -/
theorem claim_C2_critique_fail_fast_witness :
    (exceptFailed (run_persona (Except.error "Gemini 500") "systems") = true ∨
      exceptFailed
        (run_persona (Except.ok ([] : List AnalysisData)) "bizops") = true) ∧
    ((get_project
        { projects := [{ id := 0, user_prompt := "a cafe app",
                         status := "processing" }],
          blueprints := [], analyses := [], nextId := 1 } 0).isSome = true) ∧
    project_status
      (blueprint_analysis_orchestrator
        { projects := [{ id := 0, user_prompt := "a cafe app",
                         status := "processing" }],
          blueprints := [], analyses := [], nextId := 1 } 0
        { name := some "bp", description := some "d", pros := none,
          cons := none, mermaid_diagram := none, analyses := [] }
        { systems := Except.error "Gemini 500",
          bizops := Except.ok [], embeds := [],
          diagram := Except.error "skipped", commit_ok := true }) 0
      = some "error" :=
  ⟨Or.inl rfl, by decide,
   (claim_C2_critique_fail_fast
      { projects := [{ id := 0, user_prompt := "a cafe app",
                       status := "processing" }],
        blueprints := [], analyses := [], nextId := 1 } 0
      { name := some "bp", description := some "d", pros := none,
        cons := none, mermaid_diagram := none, analyses := [] }
      { systems := Except.error "Gemini 500",
        bizops := Except.ok [], embeds := [],
        diagram := Except.error "skipped", commit_ok := true }
      (Or.inl rfl) (by decide)).2.2⟩

/-! ## Validation and persist helper lemmas -/

/-- The Except-valued and Bool-valued forms of the analysis validation
agree. -/
lemma validate_analysis_data_ok_iff (a : AnalysisData) :
    validate_analysis_data a = .ok () ↔ analysisDataValid a = true := by
  rcases a with ⟨c, f, s, t, e⟩
  unfold validate_analysis_data analysisDataValid
  cases c <;> cases f <;> cases s <;> simp

/-- A valid batch of analysis dictionaries is staged in full, preserving
order, count and each row's embedding. -/
lemma buildAnalysisRows_ok (bpId : Nat) (l : List AnalysisData)
    (h : l.all analysisDataValid = true) :
    ∀ nid, ∃ rows, buildAnalysisRows bpId nid l = .ok rows
      ∧ rows.length = l.length
      ∧ rows.map (·.finding_embedding) = l.map (·.finding_embedding) := by
  induction l with
  | nil => intro nid; exact ⟨[], rfl, rfl, rfl⟩
  | cons d ds ih =>
      intro nid
      rw [List.all_cons, Bool.and_eq_true] at h
      obtain ⟨rows, hrows, hlen, hemb⟩ := ih h.2 (nid + 1)
      have hv : validate_analysis_data d = .ok () :=
        (validate_analysis_data_ok_iff d).mpr h.1
      have hcons : buildAnalysisRows bpId nid (d :: ds)
          = .ok ({ id := nid, blueprint_id := bpId,
                   category := d.category.getD "",
                   finding := d.finding.getD "",
                   severity := d.severity.getD 0, agent_type := none,
                   finding_embedding := d.finding_embedding } :: rows) := by
        simp [buildAnalysisRows, hv, hrows]
      exact ⟨_, hcons, by simpa using hlen, by simpa using hemb⟩

/-- A batch containing any invalid analysis dictionary fails as a whole. -/
lemma buildAnalysisRows_error (bpId : Nat) (l : List AnalysisData)
    (h : l.all analysisDataValid = false) :
    ∀ nid, ∃ e, buildAnalysisRows bpId nid l = .error e := by
  induction l with
  | nil => intro nid; simp at h
  | cons d ds ih =>
      intro nid
      rw [List.all_cons, Bool.and_eq_false_iff] at h
      by_cases hd : analysisDataValid d = true
      · have hds : ds.all analysisDataValid = false := by
          rcases h with h | h
          · exact absurd hd (by simp [h])
          · exact h
        obtain ⟨e, he⟩ := ih hds (nid + 1)
        have hv : validate_analysis_data d = .ok () :=
          (validate_analysis_data_ok_iff d).mpr hd
        exact ⟨e, by simp [buildAnalysisRows, hv, he]⟩
      · cases hval : validate_analysis_data d with
        | ok u =>
            exact absurd ((validate_analysis_data_ok_iff d).mp (by
              cases u; exact hval)) hd
        | error e =>
            exact ⟨e, by simp [buildAnalysisRows, hval]⟩

/-- Any failing persist call leaves the committed store unchanged and
surfaces an error: the rollback semantics of
`save_blueprint_and_analyses`. -/
lemma save_error_of_failure (db : Store) (pid : Nat) (bd : BlueprintData)
    (commit_ok : Bool)
    (h : get_project db pid = none ∨ bd.analyses.all analysisDataValid = false
       ∨ commit_ok = false) :
    ∃ e, save_blueprint_and_analyses db pid bd commit_ok = (db, .error e) := by
  cases hp : get_project db pid with
  | none => exact ⟨"Project not found", by simp [save_blueprint_and_analyses, hp]⟩
  | some p =>
      rcases h with h | h | h
      · rw [hp] at h; cases h
      · obtain ⟨e, he⟩ := buildAnalysisRows_error db.nextId bd.analyses h
          (db.nextId + 1)
        exact ⟨e, by simp [save_blueprint_and_analyses, hp, he]⟩
      · cases hall : bd.analyses.all analysisDataValid with
        | false =>
            obtain ⟨e, he⟩ := buildAnalysisRows_error db.nextId bd.analyses hall
              (db.nextId + 1)
            exact ⟨e, by simp [save_blueprint_and_analyses, hp, he]⟩
        | true =>
            obtain ⟨rows, hrows, _, _⟩ := buildAnalysisRows_ok db.nextId
              bd.analyses hall (db.nextId + 1)
            exact ⟨"commit failed",
              by simp [save_blueprint_and_analyses, hp, hrows, h]⟩

/-- Whenever the persist call reports an error, the store it returns is the
one it was given. -/
lemma save_fst_of_error (db : Store) (pid : Nat) (bd : BlueprintData)
    (commit_ok : Bool) (e : String)
    (h : (save_blueprint_and_analyses db pid bd commit_ok).2 = .error e) :
    (save_blueprint_and_analyses db pid bd commit_ok).1 = db := by
  cases hp : get_project db pid with
  | none => simp [save_blueprint_and_analyses, hp]
  | some p =>
      cases hb : buildAnalysisRows db.nextId (db.nextId + 1) bd.analyses with
      | error e2 => simp [save_blueprint_and_analyses, hp, hb]
      | ok rows =>
          cases commit_ok with
          | false => simp [save_blueprint_and_analyses, hp, hb]
          | true => simp [save_blueprint_and_analyses, hp, hb] at h

/-! ## Claim C3 -/

/-- Claim C3: the persist stage inserts a slot's Blueprint together with all
its Analyses as one atomic unit.  If any part fails — missing project,
missing required analysis fields or severity outside [1,10] (both of which
make the batch invalid), or a store error at commit — the store is left
exactly unchanged (zero new Blueprint rows and zero new Analysis rows) and
the error propagates, so the orchestrator marks the Project "error". -/
theorem claim_C3_persist_atomic (db : Store) (pid : Nat) (bd : BlueprintData)
    (inp : OrchestratorInput) (analyses : List AnalysisData) (e : String) :
    (∀ (payload : BlueprintData) (commit_ok : Bool),
      (get_project db pid = none
        ∨ payload.analyses.all analysisDataValid = false
        ∨ commit_ok = false) →
      ∃ err, save_blueprint_and_analyses db pid payload commit_ok
        = (db, .error err)) ∧
    (run_analyst_agents inp.systems inp.bizops = .ok analyses →
     (save_blueprint_and_analyses db pid
        (orchestrator_blueprint_payload bd analyses inp.embeds inp.diagram)
        inp.commit_ok).2 = .error e →
     (get_project db pid).isSome = true →
     (blueprint_analysis_orchestrator db pid bd inp).blueprints = db.blueprints ∧
     (blueprint_analysis_orchestrator db pid bd inp).analyses = db.analyses ∧
     project_status (blueprint_analysis_orchestrator db pid bd inp) pid
       = some "error") := by
  constructor
  · intro payload commit_ok h
    exact save_error_of_failure db pid payload commit_ok h
  · intro hcrit hsave hproj
    have hfst := save_fst_of_error db pid
      (orchestrator_blueprint_payload bd analyses inp.embeds inp.diagram)
      inp.commit_ok e hsave
    have hpair : save_blueprint_and_analyses db pid
        (orchestrator_blueprint_payload bd analyses inp.embeds inp.diagram)
        inp.commit_ok = (db, .error e) :=
      Prod.ext_iff.mpr ⟨hfst, hsave⟩
    unfold blueprint_analysis_orchestrator
    simp only [hcrit, hpair]
    refine ⟨rfl, rfl, ?_⟩
    unfold project_status
    rw [get_project_update]
    cases hp : get_project db pid with
    | none => rw [hp] at hproj; simp at hproj
    | some p => simp

/-- Witness for claim C3 at concrete inputs: an analysis with severity 11
aborts the whole persist leaving the store unchanged, and a failed commit
after a successful critique marks the concrete project "error". -/
theorem claim_C3_persist_atomic_witness :
    (get_project
        { projects := [{ id := 0, user_prompt := "shop", status := "processing" }],
          blueprints := [], analyses := [], nextId := 1 } 0 = none ∨
      (({ name := some "bp", description := some "d", pros := some [],
          cons := some [], mermaid_diagram := none,
          analyses := [{ category := some "Security", finding := some "f",
                         severity := some 11, agent_type := none,
                         finding_embedding := none }] } :
          BlueprintData).analyses.all analysisDataValid = false) ∨
      (true = false)) ∧
    (∃ err,
      save_blueprint_and_analyses
        { projects := [{ id := 0, user_prompt := "shop", status := "processing" }],
          blueprints := [], analyses := [], nextId := 1 } 0
        { name := some "bp", description := some "d", pros := some [],
          cons := some [], mermaid_diagram := none,
          analyses := [{ category := some "Security", finding := some "f",
                         severity := some 11, agent_type := none,
                         finding_embedding := none }] } true
        = ({ projects := [{ id := 0, user_prompt := "shop",
                            status := "processing" }],
             blueprints := [], analyses := [], nextId := 1 }, .error err)) ∧
    project_status
      (blueprint_analysis_orchestrator
        { projects := [{ id := 0, user_prompt := "shop", status := "processing" }],
          blueprints := [], analyses := [], nextId := 1 } 0
        { name := some "bp", description := some "d", pros := some [],
          cons := some [], mermaid_diagram := none, analyses := [] }
        { systems := Except.ok [], bizops := Except.ok [], embeds := [],
          diagram := Except.error "skipped", commit_ok := false }) 0
      = some "error" := by
  refine ⟨Or.inr (Or.inl (by decide)), ?_, ?_⟩
  · exact (claim_C3_persist_atomic
      { projects := [{ id := 0, user_prompt := "shop", status := "processing" }],
        blueprints := [], analyses := [], nextId := 1 } 0
      { name := some "bp", description := some "d", pros := some [],
        cons := some [], mermaid_diagram := none, analyses := [] }
      { systems := Except.ok [], bizops := Except.ok [], embeds := [],
        diagram := Except.error "skipped", commit_ok := false }
      [] "commit failed").1
      { name := some "bp", description := some "d", pros := some [],
        cons := some [], mermaid_diagram := none,
        analyses := [{ category := some "Security", finding := some "f",
                       severity := some 11, agent_type := none,
                       finding_embedding := none }] } true
      (Or.inr (Or.inl (by decide)))
  · exact ((claim_C3_persist_atomic
      { projects := [{ id := 0, user_prompt := "shop", status := "processing" }],
        blueprints := [], analyses := [], nextId := 1 } 0
      { name := some "bp", description := some "d", pros := some [],
        cons := some [], mermaid_diagram := none, analyses := [] }
      { systems := Except.ok [], bizops := Except.ok [], embeds := [],
        diagram := Except.error "skipped", commit_ok := false }
      [] "commit failed").2 rfl rfl (by decide)).2.2

/-! ## Claim C1 -/

/-- Validity only reads the category, finding and severity fields, so
retagging the origin does not change it. -/
lemma analysisDataValid_set_agent (a : AnalysisData) (t : Option String) :
    analysisDataValid { a with agent_type := t } = analysisDataValid a := rfl

/-- A persona's validation loop accepts a list only if every item is
valid. -/
lemma validatePersonaList_ok (l : List AnalysisData)
    (h : validatePersonaList l = .ok ()) : l.all analysisDataValid = true := by
  induction l with
  | nil => rfl
  | cons a rest ih =>
      unfold validatePersonaList at h
      cases hv : validate_analysis_data a with
      | error e => rw [hv] at h; simp at h
      | ok u =>
          cases u
          rw [hv] at h
          rw [List.all_cons, (validate_analysis_data_ok_iff a).mp hv,
            Bool.true_and]
          exact ih h

/-- Validity only reads the category, finding and severity fields, so
rewriting the embedding does not change it. -/
lemma analysisDataValid_set_embedding (a : AnalysisData) (v : Option Embedding) :
    analysisDataValid { a with finding_embedding := v } = analysisDataValid a :=
  rfl

/-- A persona that succeeds returns only valid, tagged analyses. -/
lemma run_persona_ok_valid (provider : Except String (List AnalysisData))
    (tag : String) (l : List AnalysisData)
    (h : run_persona provider tag = .ok l) :
    l.all analysisDataValid = true := by
  cases provider with
  | error e => simp [run_persona] at h
  | ok raw =>
      simp only [run_persona] at h
      cases hv : validatePersonaList raw with
      | error e => rw [hv] at h; simp at h
      | ok u =>
          cases u
          rw [hv] at h
          simp only [Except.ok.injEq] at h
          subst h
          have hraw := validatePersonaList_ok raw hv
          rw [List.all_eq_true] at hraw ⊢
          intro x hx
          obtain ⟨a, ha, rfl⟩ := List.mem_map.mp hx
          rw [analysisDataValid_set_agent]
          exact hraw a ha

/-- The critique join returns only valid analyses. -/
lemma run_analyst_agents_ok_valid
    (sys biz : Except String (List AnalysisData)) (l : List AnalysisData)
    (h : run_analyst_agents sys biz = .ok l) :
    l.all analysisDataValid = true := by
  unfold run_analyst_agents at h
  cases hs : run_persona sys "systems" with
  | error e => rw [hs] at h; simp at h
  | ok s =>
      cases hb : run_persona biz "bizops" with
      | error e => rw [hs, hb] at h; simp at h
      | ok b =>
          rw [hs, hb] at h
          have hl : l = s ++ b := by cases h; rfl
          subst hl
          rw [List.all_append, run_persona_ok_valid sys "systems" s hs,
            run_persona_ok_valid biz "bizops" b hb]
          rfl

/-- Unfolding equation for enrichment on a cons cell. -/
lemma attach_embeddings_cons (a : AnalysisData) (rest : List AnalysisData)
    (r : Except String Embedding) (rs : List (Except String Embedding)) :
    attach_embeddings (a :: rest) (r :: rs)
      = (match r with
         | .error _ => { a with finding_embedding := none }
         | .ok v =>
             { a with finding_embedding := if v.isEmpty then none else some v })
        :: attach_embeddings rest rs := by
  unfold attach_embeddings
  rw [List.zip_cons_cons, List.map_cons]

/-- Enrichment only rewrites embeddings, so it preserves validity. -/
lemma attach_embeddings_all_valid (l : List AnalysisData)
    (embeds : List (Except String Embedding))
    (h : l.all analysisDataValid = true) :
    (attach_embeddings l embeds).all analysisDataValid = true := by
  induction l generalizing embeds with
  | nil => rfl
  | cons a rest ih =>
      cases embeds with
      | nil => rfl
      | cons r rs =>
          rw [List.all_cons, Bool.and_eq_true] at h
          have hrest := ih rs h.2
          rw [attach_embeddings_cons, List.all_cons, Bool.and_eq_true]
          refine ⟨?_, hrest⟩
          cases r with
          | error e => rw [analysisDataValid_set_embedding]; exact h.1
          | ok v => rw [analysisDataValid_set_embedding]; exact h.1

/-- Counting embedding failures steps over a failed head call. -/
lemma countEmbedFailures_cons_error (e : String)
    (rs : List (Except String Embedding)) :
    countEmbedFailures (Except.error e :: rs) = countEmbedFailures rs + 1 := by
  simp [countEmbedFailures, List.countP_cons, exceptFailed]

/-- Counting embedding failures steps over a successful head call. -/
lemma countEmbedFailures_cons_ok (v : Embedding)
    (rs : List (Except String Embedding)) :
    countEmbedFailures (Except.ok v :: rs) = countEmbedFailures rs := by
  simp [countEmbedFailures, List.countP_cons, exceptFailed]

/-- Enrichment records exactly the failed calls as absent embeddings and,
when every successful call returned a non-empty vector, exactly the
successful ones as present. -/
lemma attach_embeddings_counts (l : List AnalysisData)
    (embeds : List (Except String Embedding))
    (hlen : embeds.length = l.length)
    (hsucc : embeds.all (fun r =>
        match r with
        | .ok v => !v.isEmpty
        | .error _ => true) = true) :
    ((attach_embeddings l embeds).map (·.finding_embedding)).countP
        (·.isNone) = countEmbedFailures embeds ∧
    ((attach_embeddings l embeds).map (·.finding_embedding)).countP
        (·.isSome) = embeds.length - countEmbedFailures embeds := by
  induction l generalizing embeds with
  | nil =>
      have : embeds = [] := List.length_eq_zero.mp (by simpa using hlen)
      subst this
      exact ⟨rfl, rfl⟩
  | cons a rest ih =>
      cases embeds with
      | nil => simp at hlen
      | cons r rs =>
          rw [List.all_cons, Bool.and_eq_true] at hsucc
          have hlen' : rs.length = rest.length := by simpa using hlen
          obtain ⟨h1, h2⟩ := ih rs hlen' hsucc.2
          have hk : countEmbedFailures rs ≤ rs.length :=
            List.countP_le_length _
          cases r with
          | error e =>
              rw [attach_embeddings_cons]
              refine ⟨?_, ?_⟩
              · rw [List.map_cons, List.countP_cons,
                  countEmbedFailures_cons_error, h1]
                simp
              · rw [List.map_cons, List.countP_cons,
                  countEmbedFailures_cons_error, h2, List.length_cons]
                simp only [Option.isSome_none, Bool.false_eq_true, if_false,
                  Nat.add_zero]
                omega
          | ok v =>
              have hv : v.isEmpty = false := by
                have := hsucc.1
                simp only [Bool.not_eq_true'] at this
                exact this
              rw [attach_embeddings_cons]
              refine ⟨?_, ?_⟩
              · rw [List.map_cons, List.countP_cons,
                  countEmbedFailures_cons_ok, h1]
                simp [hv]
              · rw [List.map_cons, List.countP_cons,
                  countEmbedFailures_cons_ok, h2, List.length_cons]
                simp only [hv, Bool.false_eq_true, if_false,
                  Option.isSome_some, if_true]
                omega

/-- Enrichment of `n` findings yields `n` enriched dictionaries when the
embedding outcome list has length `n`. -/
lemma attach_embeddings_length (l : List AnalysisData)
    (embeds : List (Except String Embedding))
    (hlen : embeds.length = l.length) :
    (attach_embeddings l embeds).length = l.length := by
  unfold attach_embeddings
  rw [List.length_map, List.length_zip]
  omega

/-- The Completion Detector only rewrites project statuses. -/
lemma update_project_status_if_complete_parts (db : Store) (pid : Nat) :
    (update_project_status_if_complete db pid).blueprints = db.blueprints ∧
    (update_project_status_if_complete db pid).analyses = db.analyses := by
  unfold update_project_status_if_complete
  split
  · exact ⟨rfl, rfl⟩
  · exact ⟨rfl, rfl⟩

/-- Claim C1: for a slot whose critique stage produced `n` findings, if `k`
of the `n` per-finding embedding calls fail (and each successful call
returns a non-empty vector), the enrichment stage still completes and the
persist stage still runs, persisting exactly one Blueprint and `n` Analyses
of which exactly `k` have an absent embedding and `n − k` a populated
one. -/
theorem claim_C1_enrichment_fail_soft (db : Store) (pid : Nat)
    (bd : BlueprintData) (inp : OrchestratorInput)
    (analyses : List AnalysisData)
    (hcrit : run_analyst_agents inp.systems inp.bizops = .ok analyses)
    (hlen : inp.embeds.length = analyses.length)
    (hsucc : inp.embeds.all (fun r =>
        match r with
        | .ok v => !v.isEmpty
        | .error _ => true) = true)
    (hproj : (get_project db pid).isSome = true)
    (hcommit : inp.commit_ok = true) :
    ∃ rows : List Analysis,
      (blueprint_analysis_orchestrator db pid bd inp).analyses
          = db.analyses ++ rows ∧
      (blueprint_analysis_orchestrator db pid bd inp).blueprints.length
          = db.blueprints.length + 1 ∧
      rows.length = analyses.length ∧
      (rows.map (·.finding_embedding)).countP (·.isNone)
          = countEmbedFailures inp.embeds ∧
      (rows.map (·.finding_embedding)).countP (·.isSome)
          = analyses.length - countEmbedFailures inp.embeds := by
  have hall := run_analyst_agents_ok_valid _ _ _ hcrit
  have hvalid : (attach_embeddings analyses inp.embeds).all analysisDataValid
      = true := attach_embeddings_all_valid _ _ hall
  obtain ⟨p, hp⟩ := Option.isSome_iff_exists.mp hproj
  obtain ⟨rows, hrows, hrlen, hremb⟩ :=
    buildAnalysisRows_ok db.nextId (attach_embeddings analyses inp.embeds)
      hvalid (db.nextId + 1)
  have hsave : save_blueprint_and_analyses db pid
      (orchestrator_blueprint_payload bd analyses inp.embeds inp.diagram)
      inp.commit_ok
      = ({ db with
            blueprints := db.blueprints ++
              [{ id := db.nextId, project_id := pid,
                 name := bd.name.getD "Unnamed Blueprint",
                 description := bd.description.getD "",
                 pros := bd.pros.getD [], cons := bd.cons.getD [],
                 mermaid_diagram := none }],
            analyses := db.analyses ++ rows,
            nextId := db.nextId + 1 + rows.length }, .ok db.nextId) := by
    rw [hcommit]
    simp [save_blueprint_and_analyses, hp, hrows,
      orchestrator_blueprint_payload]
  refine ⟨rows, ?_, ?_, ?_, ?_, ?_⟩
  · unfold blueprint_analysis_orchestrator
    simp only [hcrit, hsave]
    rw [(update_project_status_if_complete_parts _ _).2]
  · unfold blueprint_analysis_orchestrator
    simp only [hcrit, hsave]
    rw [(update_project_status_if_complete_parts _ _).1]
    simp
  · rw [hrlen, attach_embeddings_length _ _ hlen]
  · rw [hremb]
    exact (attach_embeddings_counts _ _ hlen hsucc).1
  · rw [hremb, ← hlen]
    exact (attach_embeddings_counts _ _ hlen hsucc).2

/-- Witness for claim C1 at concrete inputs: two findings, one failed
embedding call — both Analyses persist, one with an absent and one with a
populated embedding. -/
theorem claim_C1_enrichment_fail_soft_witness :
    run_analyst_agents C1inp.systems C1inp.bizops = .ok C1analyses ∧
    C1inp.embeds.length = C1analyses.length ∧
    (C1inp.embeds.all (fun r =>
        match r with
        | .ok v => !v.isEmpty
        | .error _ => true) = true) ∧
    (get_project C1db 0).isSome = true ∧
    C1inp.commit_ok = true ∧
    countEmbedFailures C1inp.embeds = 1 ∧
    (∃ rows : List Analysis,
      (blueprint_analysis_orchestrator C1db 0 C1bd C1inp).analyses
          = C1db.analyses ++ rows ∧
      rows.length = 2 ∧
      (rows.map (·.finding_embedding)).countP (·.isNone) = 1 ∧
      (rows.map (·.finding_embedding)).countP (·.isSome) = 1) := by
  refine ⟨rfl, rfl, rfl, rfl, rfl, rfl, ?_⟩
  obtain ⟨rows, h1, h2, h3, h4, h5⟩ :=
    claim_C1_enrichment_fail_soft C1db 0 C1bd C1inp C1analyses rfl rfl rfl rfl
      rfl
  exact ⟨rows, h1, h3.trans (by decide), h4.trans (by decide),
    h5.trans (by decide)⟩

/-! ## Claim C9 -/

/-- Lookup skips a prefix in which no project has the sought id. -/
lemma find?_append_no_match (l tail : List Project) (pid : Nat)
    (h : ∀ q ∈ l, (q.id == pid) = false) :
    (l ++ tail).find? (fun p => p.id == pid)
      = tail.find? (fun p => p.id == pid) := by
  induction l with
  | nil => rfl
  | cons p ps ih =>
      rw [List.cons_append,
        List.find?_cons_of_neg _ (by simp [h p (List.mem_cons_self p ps)])]
      exact ih fun q hq => h q (List.mem_cons_of_mem p hq)

/-- A status update skips a prefix in which no project has the sought id. -/
lemma setStatusFirst_append_no_match (l tail : List Project) (pid : Nat)
    (s : String) (h : ∀ q ∈ l, (q.id == pid) = false) :
    setStatusFirst pid s (l ++ tail) = l ++ setStatusFirst pid s tail := by
  induction l with
  | nil => rfl
  | cons p ps ih =>
      rw [List.cons_append]
      simp only [setStatusFirst]
      rw [if_neg (by simp [h p (List.mem_cons_self p ps)]),
        ih fun q hq => h q (List.mem_cons_of_mem p hq)]
      rfl

/-- Claim C9: when the synchronous generation stage fails, the Project row
created at the start of the request is not rolled back — it persists in the
primary store with status "error" and remains discoverable via the status
endpoint — even though the creation call itself reports a 500 failure. -/
theorem claim_C9_failed_generation_keeps_project (db : Store)
    (prompt e : String)
    (hfresh : db.projects.all (fun p => p.id != db.nextId) = true) :
    (∃ d, (create_project_endpoint db prompt (.error e)).2
        = .error { status_code := 500, detail := d }) ∧
    project_status (create_project_endpoint db prompt (.error e)).1 db.nextId
      = some "error" ∧
    get_project_status_endpoint (create_project_endpoint db prompt (.error e)).1
      db.nextId = .ok "error" := by
  have hno : ∀ q ∈ db.projects, (q.id == db.nextId) = false := by
    intro q hq
    have := List.all_eq_true.mp hfresh q hq
    simpa using this
  have hget : get_project (crud_create_project db prompt).1 db.nextId
      = some { id := db.nextId, user_prompt := prompt, status := "pending" } := by
    unfold crud_create_project get_project
    rw [find?_append_no_match _ _ _ hno]
    simp
  have hst : (create_project_endpoint db prompt (.error e)).1
      = update_project_status (crud_create_project db prompt).1 db.nextId
          "error" := rfl
  refine ⟨⟨s!"Failed to generate blueprints: {e}", rfl⟩, ?_, ?_⟩
  · rw [hst]
    unfold project_status
    rw [get_project_update, hget]
    rfl
  · rw [hst]
    unfold get_project_status_endpoint
    rw [get_project_update, hget]
    rfl

/-- Witness for claim C9 at a concrete store: a failed architect call on an
empty store leaves one project with status "error" that the status endpoint
reports. -/
theorem claim_C9_failed_generation_keeps_project_witness :
    (List.all ([] : List Project) (fun p => p.id != 0) = true) ∧
    project_status
      (create_project_endpoint
        { projects := [], blueprints := [], analyses := [], nextId := 0 }
        "an online shop" (.error "provider down")).1 0 = some "error" ∧
    get_project_status_endpoint
      (create_project_endpoint
        { projects := [], blueprints := [], analyses := [], nextId := 0 }
        "an online shop" (.error "provider down")).1 0 = .ok "error" :=
  ⟨rfl,
   (claim_C9_failed_generation_keeps_project
     { projects := [], blueprints := [], analyses := [], nextId := 0 }
     "an online shop" "provider down" rfl).2.1,
   (claim_C9_failed_generation_keeps_project
     { projects := [], blueprints := [], analyses := [], nextId := 0 }
     "an online shop" "provider down" rfl).2.2⟩

/-! ## Claim C8 -/

/-- Claim C8: for every existing project, the delete operation succeeds and
cascades — it removes the Project record together with all of its owned
Blueprints and their Analyses, while unrelated projects survive — and
deleting an unknown project id reports 404 not-found with the store
untouched, rather than an internal error. -/
theorem claim_C8_delete_cascades (db : Store) (pid : Nat) :
    ((get_project db pid).isSome = true →
      (∃ m, (delete_project_endpoint db pid).2 = .ok m) ∧
      get_project (delete_project_endpoint db pid).1 pid = none ∧
      (∀ b ∈ (delete_project_endpoint db pid).1.blueprints,
          b.project_id ≠ pid) ∧
      (∀ a ∈ (delete_project_endpoint db pid).1.analyses,
        ∀ b ∈ db.blueprints, b.project_id = pid → a.blueprint_id ≠ b.id) ∧
      (∀ p ∈ db.projects, p.id ≠ pid →
          p ∈ (delete_project_endpoint db pid).1.projects)) ∧
    (get_project db pid = none →
      delete_project_endpoint db pid
        = (db, .error { status_code := 404, detail := "Project not found" })) := by
  constructor
  · intro hp
    obtain ⟨p, hpe⟩ := Option.isSome_iff_exists.mp hp
    have hrun : delete_project_endpoint db pid
        = ({ db with
              projects := db.projects.filter fun q => q.id != pid,
              blueprints := db.blueprints.filter fun b => b.project_id != pid,
              analyses := db.analyses.filter fun a =>
                (db.blueprints.filter fun b => b.project_id == pid).all
                  fun b => b.id != a.blueprint_id },
           .ok "Project deleted successfully") := by
      simp [delete_project_endpoint, crud_delete_project, hpe]
    rw [hrun]
    refine ⟨⟨"Project deleted successfully", rfl⟩, ?_, ?_, ?_, ?_⟩
    · apply List.find?_eq_none.mpr
      intro q hq
      have := (List.mem_filter.mp hq).2
      simpa using this
    · intro b hb
      have := (List.mem_filter.mp hb).2
      simpa using this
    · intro a ha b hb hbp
      have hall := (List.mem_filter.mp ha).2
      have hbmem : b ∈ db.blueprints.filter fun b => b.project_id == pid :=
        List.mem_filter.mpr ⟨hb, by simp [hbp]⟩
      have := List.all_eq_true.mp hall b hbmem
      have hne : b.id ≠ a.blueprint_id := by simpa using this
      exact fun hc => hne hc.symm
    · intro q hq hne
      exact List.mem_filter.mpr ⟨hq, by simp [hne]⟩
  · intro h
    simp [delete_project_endpoint, crud_delete_project, h]

/-- Witness for claim C8 at a concrete store: deleting project 0 removes it
with its Blueprint and Analysis while project 5 survives, and deleting the
unknown id 99 reports 404 leaving the store untouched. -/
theorem claim_C8_delete_cascades_witness :
    ((get_project
        { projects := [{ id := 0, user_prompt := "shop", status := "completed" },
                       { id := 5, user_prompt := "cafe", status := "pending" }],
          blueprints := [{ id := 1, project_id := 0, name := "bp",
                           description := "d", pros := [], cons := [],
                           mermaid_diagram := none }],
          analyses := [{ id := 2, blueprint_id := 1, category := "Security",
                         finding := "f", severity := 9, agent_type := none,
                         finding_embedding := none }],
          nextId := 6 } 0).isSome = true ∧
      get_project
        (delete_project_endpoint
          { projects := [{ id := 0, user_prompt := "shop", status := "completed" },
                         { id := 5, user_prompt := "cafe", status := "pending" }],
            blueprints := [{ id := 1, project_id := 0, name := "bp",
                             description := "d", pros := [], cons := [],
                             mermaid_diagram := none }],
            analyses := [{ id := 2, blueprint_id := 1, category := "Security",
                           finding := "f", severity := 9, agent_type := none,
                           finding_embedding := none }],
            nextId := 6 } 0).1 0 = none) ∧
    (get_project
        { projects := [], blueprints := [], analyses := [], nextId := 0 } 99
        = none ∧
      delete_project_endpoint
        { projects := [], blueprints := [], analyses := [], nextId := 0 } 99
        = ({ projects := [], blueprints := [], analyses := [], nextId := 0 },
           .error { status_code := 404, detail := "Project not found" })) := by
  refine ⟨⟨by decide, ?_⟩, ⟨by decide, ?_⟩⟩
  · exact ((claim_C8_delete_cascades
      { projects := [{ id := 0, user_prompt := "shop", status := "completed" },
                     { id := 5, user_prompt := "cafe", status := "pending" }],
        blueprints := [{ id := 1, project_id := 0, name := "bp",
                         description := "d", pros := [], cons := [],
                         mermaid_diagram := none }],
        analyses := [{ id := 2, blueprint_id := 1, category := "Security",
                       finding := "f", severity := 9, agent_type := none,
                       finding_embedding := none }],
        nextId := 6 } 0).1 (by decide)).2.1
  · exact (claim_C8_delete_cascades
      { projects := [], blueprints := [], analyses := [], nextId := 0 }
      99).2 (by decide)

/-! ## Claim C7 -/

/-- Claim C7 fails on the code: in a run where the diagram stage succeeds
(`C1inp.diagram` is a payload), the orchestrator attaches it to the payload,
but `save_blueprint_and_analyses` builds the Blueprint row without the
`mermaid_diagram` key, so the persisted Blueprint's diagram is absent and
get-project returns null for it. -/
theorem claim_C7_diagram_not_persisted :
    C1inp.diagram = Except.ok "graph TB" ∧
    (orchestrator_blueprint_payload C1bd C1analyses C1inp.embeds
        C1inp.diagram).mermaid_diagram = some "graph TB" ∧
    ((blueprint_analysis_orchestrator C1db 0 C1bd C1inp).blueprints.map
        (·.mermaid_diagram)) = [none] := by
  refine ⟨rfl, rfl, ?_⟩
  decide

end GenesisEngine
